import Mathlib

/-!
Shallow embedding of glib's `glib/gthread-posix.c` (POSIX backend of the
GLib threading primitives), together with proofs checking the
natural-language specification of that file against the code.

Modelling conventions:

* A native pthread call is modelled by the integer status it returns in a
  given invocation; each GLib wrapper becomes a Lean function of that
  status (plus its other arguments), so that the wrapper's control flow on
  every possible native status is captured exactly.
* `g_thread_abort` terminates the process; an operation's outcome is
  therefore either a normal return or an `aborted status function` value
  recording the exact arguments the C code passed to `g_thread_abort`.
* Pointers are modelled as `Option Nat` (`none` is `NULL`, `some h` a
  non-null handle with identity `h`).
-/

set_option autoImplicit false

namespace GThreadPosix

/-- Linux errno value for EAGAIN (resource temporarily unavailable). -/
def EAGAIN : Nat := 11

/-- Linux errno value for EBUSY (device or resource busy). -/
def EBUSY : Nat := 16

/-- Linux errno value for ETIMEDOUT (connection timed out). -/
def ETIMEDOUT : Nat := 110

/-- Linux errno value for EINVAL (invalid argument); used below as a
representative unexpected native status. -/
def EINVAL : Nat := 22

/-- Linux errno value for EPERM (operation not permitted); the status
`pthread_mutex_unlock` returns for an unlock by a non-owner of an
error-checking mutex. -/
def EPERM : Nat := 1

/-- Outcome of one primitive operation: a normal return carrying the C
return value, or a process abort via `g_thread_abort status function`,
recording the two arguments the C code passed to the helper. -/
inductive ThreadResult (α : Type) where
  | ok : α → ThreadResult α
  | aborted : Nat → String → ThreadResult α
  deriving DecidableEq

/-- The two conversion-specification slots of the message `g_thread_abort`
prints before calling `abort()`.  The format string reads
`Unexpected error from C library during <duringSlot>: <statusSlot>`.
The C code at lines 72-73 passes `strerror (status)` as the first vararg
and `function` as the second, so `duringSlot` receives the status string
and `statusSlot` receives the operation name. -/
structure AbortDiagnostic where
  duringSlot : String
  statusSlot : String
  deriving DecidableEq

/-- `g_thread_abort` (lines 68-75): the diagnostic it prints, as a function
of the C library's `strerror` table, the failing status and the operation
name it was given.  Mirrors the vararg order of the `fprintf` call:
`strerror (status)` first, `function` second. -/
def g_thread_abort_message (strerror : Nat → String) (status : Nat)
    (function : String) : AbortDiagnostic :=
  ⟨strerror status, function⟩

/-! ### GMutex (lines 111-231)

Each operation checks the status of exactly one pthread call and invokes
`g_thread_abort` on an unexpected status. -/

/-- `g_mutex_init` (lines 111-129): aborts on any nonzero status from
`pthread_mutex_init`. -/
def g_mutex_init (status : Nat) : ThreadResult Unit :=
  if status ≠ 0 then .aborted status "pthread_mutex_init" else .ok ()

/-- `g_mutex_clear` (lines 145-152): aborts on any nonzero status from
`pthread_mutex_destroy`. -/
def g_mutex_clear (status : Nat) : ThreadResult Unit :=
  if status ≠ 0 then .aborted status "pthread_mutex_destroy" else .ok ()

/-- `g_mutex_lock` (lines 170-177): aborts on any nonzero status from
`pthread_mutex_lock`. -/
def g_mutex_lock (status : Nat) : ThreadResult Unit :=
  if status ≠ 0 then .aborted status "pthread_mutex_lock" else .ok ()

/-- `g_mutex_unlock` (lines 192-199): aborts on any nonzero status from
`pthread_mutex_unlock`.  The operation name handed to `g_thread_abort` is
the literal string the C code passes at line 198, which is
`"pthread_mutex_lock"`, not `"pthread_mutex_unlock"`. -/
def g_mutex_unlock (status : Nat) : ThreadResult Unit :=
  if status ≠ 0 then .aborted status "pthread_mutex_lock" else .ok ()

/-- `g_mutex_trylock` (lines 219-231): returns TRUE on status 0, aborts on
any status other than 0 and EBUSY, and returns FALSE on EBUSY. -/
def g_mutex_trylock (status : Nat) : ThreadResult Bool :=
  if status = 0 then .ok true
  else if status ≠ EBUSY then .aborted status "pthread_mutex_trylock"
  else .ok false

/-! ### GRWLock (lines 427-559)

None of the eight operations inspects the status of its pthread call:
the blocking and unlock operations discard it outright, and the two
trylock operations map every nonzero status to FALSE. -/

/-- `g_rw_lock_init` (lines 427-431): the status of `pthread_rwlock_init`
is discarded. -/
def g_rw_lock_init (_status : Nat) : ThreadResult Unit := .ok ()

/-- `g_rw_lock_clear` (lines 444-448): the status of
`pthread_rwlock_destroy` is discarded. -/
def g_rw_lock_clear (_status : Nat) : ThreadResult Unit := .ok ()

/-- `g_rw_lock_writer_lock` (lines 460-464): the status of
`pthread_rwlock_wrlock` is discarded. -/
def g_rw_lock_writer_lock (_status : Nat) : ThreadResult Unit := .ok ()

/-- `g_rw_lock_writer_trylock` (lines 478-485): FALSE on any nonzero
status of `pthread_rwlock_trywrlock`, TRUE otherwise; never aborts. -/
def g_rw_lock_writer_trylock (status : Nat) : ThreadResult Bool :=
  if status ≠ 0 then .ok false else .ok true

/-- `g_rw_lock_writer_unlock` (lines 498-502): the status of
`pthread_rwlock_unlock` is discarded. -/
def g_rw_lock_writer_unlock (_status : Nat) : ThreadResult Unit := .ok ()

/-- `g_rw_lock_reader_lock` (lines 517-521): the status of
`pthread_rwlock_rdlock` is discarded. -/
def g_rw_lock_reader_lock (_status : Nat) : ThreadResult Unit := .ok ()

/-- `g_rw_lock_reader_trylock` (lines 535-542): FALSE on any nonzero
status of `pthread_rwlock_tryrdlock`, TRUE otherwise; never aborts. -/
def g_rw_lock_reader_trylock (status : Nat) : ThreadResult Bool :=
  if status ≠ 0 then .ok false else .ok true

/-- `g_rw_lock_reader_unlock` (lines 555-559): the status of
`pthread_rwlock_unlock` is discarded. -/
def g_rw_lock_reader_unlock (_status : Nat) : ThreadResult Unit := .ok ()

/-! ### GRecMutex status handling (lines 348-392)

`g_rec_mutex_lock` and `g_rec_mutex_unlock` discard the status of the
underlying `pthread_mutex_lock`/`pthread_mutex_unlock` call on the lazily
obtained backing mutex; `g_rec_mutex_trylock` maps every nonzero status to
FALSE.  The lazy-allocation accessor itself is modelled separately below
(`RecMutexRace`). -/

/-- `g_rec_mutex_lock` (lines 348-352), viewed as a function of the status
of `pthread_mutex_lock` on the backing mutex: the status is discarded. -/
def g_rec_mutex_lock (_status : Nat) : ThreadResult Unit := .ok ()

/-- `g_rec_mutex_unlock` (lines 367-371): the status of
`pthread_mutex_unlock` is discarded. -/
def g_rec_mutex_unlock (_status : Nat) : ThreadResult Unit := .ok ()

/-- `g_rec_mutex_trylock` (lines 385-392): FALSE on any nonzero status of
`pthread_mutex_trylock`, TRUE otherwise; never aborts. -/
def g_rec_mutex_trylock (status : Nat) : ThreadResult Bool :=
  if status ≠ 0 then .ok false else .ok true

/-! ### GCond (lines 583-756) -/

/-- `g_cond_init` (lines 583-590): aborts on any nonzero status from
`pthread_cond_init`. -/
def g_cond_init (status : Nat) : ThreadResult Unit :=
  if status ≠ 0 then .aborted status "pthread_cond_init" else .ok ()

/-- `g_cond_clear` (lines 606-613): aborts on any nonzero status from
`pthread_cond_destroy`. -/
def g_cond_clear (status : Nat) : ThreadResult Unit :=
  if status ≠ 0 then .aborted status "pthread_cond_destroy" else .ok ()

/-- `g_cond_wait` (lines 626-634): aborts on any nonzero status from
`pthread_cond_wait`. -/
def g_cond_wait (status : Nat) : ThreadResult Unit :=
  if status ≠ 0 then .aborted status "pthread_cond_wait" else .ok ()

/-- `g_cond_signal` (lines 648-655): aborts on any nonzero status from
`pthread_cond_signal`. -/
def g_cond_signal (status : Nat) : ThreadResult Unit :=
  if status ≠ 0 then .aborted status "pthread_cond_signal" else .ok ()

/-- `g_cond_broadcast` (lines 669-676): aborts on any nonzero status from
`pthread_cond_broadcast`. -/
def g_cond_broadcast (status : Nat) : ThreadResult Unit :=
  if status ≠ 0 then .aborted status "pthread_cond_broadcast" else .ok ()

/-- The `GTimeVal` absolute deadline passed to `g_cond_timed_wait`. -/
structure GTimeVal where
  tv_sec : Int
  tv_usec : Int
  deriving DecidableEq

/-- `g_cond_timed_wait` (lines 698-722), as a function of the deadline
argument (`none` models a NULL `abs_time`) and of the status of the one
pthread wait call the chosen branch performs: with a NULL deadline it
calls `g_cond_wait` and returns TRUE; otherwise `pthread_cond_timedwait`
status 0 returns TRUE, ETIMEDOUT returns FALSE, and anything else
aborts. -/
def g_cond_timed_wait (abs_time : Option GTimeVal) (status : Nat) :
    ThreadResult Bool :=
  match abs_time with
  | none =>
    match g_cond_wait status with
    | .ok _ => .ok true
    | .aborted s f => .aborted s f
  | some _ =>
    if status = 0 then .ok true
    else if status ≠ ETIMEDOUT then .aborted status "pthread_cond_timedwait"
    else .ok false

/-! ### GPrivate (lines 760-822)

State of one `GPrivate` slot: the `ready` flag, the `single_value`
fallback the slot itself stores before readiness, and the per-thread
values registered under the slot's pthread key (`tls t` is what
`pthread_getspecific` returns in thread `t`; `none` is `NULL`).  Thread
identifiers and stored pointers are both modelled as `Nat` / `Option
Nat`. -/
structure GPrivateState where
  ready : Bool
  single_value : Option Nat
  tls : Nat → Option Nat

/-- `g_private_init` (lines 760-766): `pthread_key_create` allocates a
fresh key, whose value is `NULL` in every thread, and then `ready` is set
to TRUE.  The destructor is registered with the native key and plays no
role in any `get`/`set` path, so it is not carried in the state; the
status of `pthread_key_create` is discarded by the C code. -/
def g_private_init (key : GPrivateState) : GPrivateState :=
  { key with tls := fun _ => none, ready := true }

/-- `g_private_get` (lines 787-795): before readiness, the shared
`single_value`; after readiness, `pthread_getspecific` for the calling
thread `t` (POSIX returns no errors from it). -/
def g_private_get (key : GPrivateState) (t : Nat) : Option Nat :=
  if key.ready = false then key.single_value
  else key.tls t

/-- `g_private_set` (lines 808-822) in calling thread `t`: before
readiness, store into the shared `single_value` and return; after
readiness, `pthread_setspecific` with the given native `status`, aborting
on a nonzero status. -/
def g_private_set (key : GPrivateState) (t : Nat) (value : Option Nat)
    (status : Nat) : ThreadResult GPrivateState :=
  if key.ready = false then .ok { key with single_value := value }
  else if status ≠ 0 then .aborted status "pthread_setspecific"
  else .ok { key with tls := fun u => if u = t then value else key.tls u }

/-! ### GRecMutex lazy backing state (lines 235-333) -/

/-- The public `GRecMutex` cell: `impl` is the lazily published pointer to
the backing `pthread_mutex_t` (`none` is `NULL`). -/
structure GRecMutex where
  impl : Option Nat
  deriving DecidableEq

/-- The statically initialized (`{ NULL }`) form of `GRecMutex`: the
backing handle is still unallocated. -/
def g_rec_mutex_static_init : GRecMutex := ⟨none⟩

/-- One resource-release action performed by the code. -/
inductive FreeEvent where
  | destroyNative : Nat → FreeEvent
  | sliceFree : Nat → FreeEvent
  deriving DecidableEq

/-- `g_rec_mutex_impl_free` (lines 250-255): destroys the native mutex
behind handle `impl` and frees its slice allocation. -/
def g_rec_mutex_impl_free (impl : Nat) : List FreeEvent :=
  [FreeEvent.destroyNative impl, FreeEvent.sliceFree impl]

/-- `g_rec_mutex_clear` (lines 328-333): calls `g_rec_mutex_impl_free` on
`rec_mutex->impl` exactly when that pointer is non-null; the list of
release actions it performs is returned. -/
def g_rec_mutex_clear (rec_mutex : GRecMutex) : List FreeEvent :=
  match rec_mutex.impl with
  | some impl => g_rec_mutex_impl_free impl
  | none => []

namespace RecMutexRace

/-!
Interleaving model of `g_rec_mutex_get_impl` (lines 257-271).  The C body
is, step by step:

1. `impl = mutex->impl;`                            (first read)
2. `if (mutex->impl == NULL)` — a second, separate read of the field;
   if non-null, fall through and `return impl` (the value of the first
   read);
3. `impl = g_rec_mutex_impl_new ();`                (allocate a candidate)
4. `g_atomic_pointer_compare_and_exchange (&mutex->impl, NULL, impl)` —
   on failure `g_rec_mutex_impl_free (impl)`;
5. `impl = mutex->impl;`                            (re-read)
6. `return impl`.

Each numbered access to the shared cell is one atomic step of a thread's
program counter; a schedule is the list of thread indices to step. -/

/-- Program counter of one thread executing `g_rec_mutex_get_impl`. -/
inductive GetImplPc where
  /-- About to perform the first read `impl = mutex->impl`. -/
  | load1 : GetImplPc
  /-- About to evaluate the second read in `if (mutex->impl == NULL)`,
  holding the local `impl` from the first read. -/
  | test : Option Nat → GetImplPc
  /-- Took the branch; about to call `g_rec_mutex_impl_new`. -/
  | allocPc : GetImplPc
  /-- About to compare-and-exchange the candidate into `mutex->impl`. -/
  | casPc : Nat → GetImplPc
  /-- Lost the compare-and-exchange; about to free the candidate. -/
  | freePc : Nat → GetImplPc
  /-- About to re-read `impl = mutex->impl` at the end of the branch. -/
  | load3 : GetImplPc
  /-- Returned the given pointer (`none` models returning `NULL`). -/
  | ret : Option Nat → GetImplPc
  deriving DecidableEq

/-- Shared state of the race: the `mutex->impl` cell, the allocator's next
fresh handle identity, the handles freed so far, and each thread's program
counter. -/
structure RaceState where
  published : Option Nat
  fresh : Nat
  freed : List Nat
  threads : List GetImplPc
  deriving DecidableEq

/-- One atomic step of a single thread of `g_rec_mutex_get_impl`, given
the shared state; returns the updated shared state and the thread's next
program counter. -/
def stepThread (s : RaceState) : GetImplPc → RaceState × GetImplPc
  | .load1 => (s, .test s.published)
  | .test localImpl =>
    if s.published = none then (s, .allocPc) else (s, .ret localImpl)
  | .allocPc => ({ s with fresh := s.fresh + 1 }, .casPc s.fresh)
  | .casPc c =>
    if s.published = none then ({ s with published := some c }, .load3)
    else (s, .freePc c)
  | .freePc c => ({ s with freed := s.freed ++ [c] }, .load3)
  | .load3 => (s, .ret s.published)
  | .ret r => (s, .ret r)

/-- Step thread `i` of the system (no-op for an out-of-range index). -/
def step (s : RaceState) (i : Nat) : RaceState :=
  match s.threads[i]? with
  | some pc =>
    let r := stepThread s pc
    { r.1 with threads := r.1.threads.set i r.2 }
  | none => s

/-- Run a schedule: step the listed threads in order. -/
def run (s : RaceState) : List Nat → RaceState
  | [] => s
  | i :: rest => run (step s i) rest

/-- Initial state for `n` threads racing on a never-used recursive mutex:
`mutex->impl` is `NULL` and every thread is about to perform its first
read. -/
def initState (n : Nat) : RaceState :=
  ⟨none, 0, [], List.replicate n GetImplPc.load1⟩

end RecMutexRace

/-! ### g_system_thread_create (lines 836-878) -/

/-- The `GThreadError` code `G_THREAD_ERROR_AGAIN` (first and only member
of the `GThreadError` enumeration, hence 0). -/
def G_THREAD_ERROR_AGAIN : Nat := 0

/-- Value of an `Int` converted to the 64-bit unsigned `gulong` type, as
the usual arithmetic conversions do when `MAX` compares the `long` result
of `sysconf` with an unsigned `stack_size`. -/
def ulongOf (i : Int) : Nat := (i % (2 ^ 64 : Int)).toNat

/-- Environment of one `g_system_thread_create` call: the statuses the
pthread calls would return and the compile-time/runtime stack-size
capabilities of the platform. -/
structure CreateEnv where
  /-- Status of `pthread_attr_init`. -/
  attrInitStatus : Nat
  /-- Status of `pthread_attr_setdetachstate`. -/
  setDetachStatus : Nat
  /-- Status of `pthread_create`. -/
  createStatus : Nat
  /-- Status of `pthread_attr_destroy`. -/
  attrDestroyStatus : Nat
  /-- Whether `HAVE_PTHREAD_ATTR_SETSTACKSIZE` is defined. -/
  haveSetStackSize : Bool
  /-- Whether `_SC_THREAD_STACK_MIN` is defined. -/
  haveStackMin : Bool
  /-- Result of `sysconf (_SC_THREAD_STACK_MIN)`, a C `long`. -/
  sysconfStackMin : Int
  deriving DecidableEq

/-- Observable outcome of one `g_system_thread_create` call. -/
structure CreateOutcome where
  /-- `g_return_if_fail` fired: a critical diagnostic was logged and the
  function returned at once. -/
  criticalReturn : Bool
  /-- `posix_check_err` called `g_error` (fatal): the operation string it
  reported, if any. -/
  fatalOp : Option String
  /-- The stack size passed to `pthread_attr_setstacksize`, if it was
  called at all. -/
  stackSizeApplied : Option Nat
  /-- The joinable flag passed to `pthread_attr_setdetachstate`, if the
  call was reached. -/
  detachJoinable : Option Bool
  /-- Whether `pthread_create` succeeded in creating a thread. -/
  threadCreated : Bool
  /-- The `GThreadError` code stored through the error out-parameter by
  `g_set_error`, if any. -/
  errorSet : Option Nat
  deriving DecidableEq

/-- `g_system_thread_create` (lines 836-878).  `thread_func` is `none` for
a NULL start-function pointer.  Control flow mirrors the C body:
`g_return_if_fail (thread_func)`; checked `pthread_attr_init`; optional
upward-clamped stack-size hint; checked `pthread_attr_setdetachstate`;
`pthread_create`; checked `pthread_attr_destroy`; then the EAGAIN
recoverable path via `g_set_error`, and `posix_check_err` on any other
nonzero creation status.

The `g_return_if_fail` macro is not part of this file; it is modelled from
its documented GLib semantics (log a critical diagnostic and return from
the function, with no other effect). -/
def g_system_thread_create (thread_func : Option Nat) (stack_size : Nat)
    (joinable : Bool) (env : CreateEnv) : CreateOutcome :=
  if thread_func = none then
    ⟨true, none, none, none, false, none⟩
  else if env.attrInitStatus ≠ 0 then
    ⟨false, some "pthread_attr_init", none, none, false, none⟩
  else
    let applied : Option Nat :=
      if env.haveSetStackSize then
        if stack_size ≠ 0 then
          some (if env.haveStackMin then
                  Nat.max (ulongOf env.sysconfStackMin) stack_size
                else stack_size)
        else none
      else none
    if env.setDetachStatus ≠ 0 then
      ⟨false, some "pthread_attr_setdetachstate", applied, some joinable,
        false, none⟩
    else if env.attrDestroyStatus ≠ 0 then
      ⟨false, some "pthread_attr_destroy", applied, some joinable,
        env.createStatus = 0, none⟩
    else if env.createStatus = EAGAIN then
      ⟨false, none, applied, some joinable, false, some G_THREAD_ERROR_AGAIN⟩
    else if env.createStatus ≠ 0 then
      ⟨false, some "pthread_create", applied, some joinable, false, none⟩
    else
      ⟨false, none, applied, some joinable, true, none⟩

/-! ## Theorems -/

/-- Claim C1: for every `g_system_thread_create` call (on the path where
the three attribute calls succeed), an EAGAIN status from `pthread_create`
sets `G_THREAD_ERROR_AGAIN` on the error out-parameter and returns without
any fatal diagnostic and without a thread, while every other nonzero
creation status is fatal (`g_error` on `"pthread_create"`), with no
recoverable error set. -/
theorem g_system_thread_create_eagain_spec (f stack_size : Nat)
    (joinable : Bool) (env : CreateEnv) (hinit : env.attrInitStatus = 0)
    (hdetach : env.setDetachStatus = 0) (hdestroy : env.attrDestroyStatus = 0) :
    (env.createStatus = EAGAIN →
      (g_system_thread_create (some f) stack_size joinable env).errorSet =
          some G_THREAD_ERROR_AGAIN ∧
        (g_system_thread_create (some f) stack_size joinable env).fatalOp =
          none ∧
        (g_system_thread_create (some f) stack_size joinable env).threadCreated =
          false) ∧
    (env.createStatus ≠ EAGAIN → env.createStatus ≠ 0 →
      (g_system_thread_create (some f) stack_size joinable env).fatalOp =
          some "pthread_create" ∧
        (g_system_thread_create (some f) stack_size joinable env).errorSet =
          none) := by
  unfold g_system_thread_create
  simp only [hinit, hdetach, hdestroy]
  constructor
  · intro hc
    simp [hc, EAGAIN]
  · intro h1 h2
    simp [h1, h2]

/-- Witness for C1: with all attribute calls succeeding, creation status
EAGAIN (11) yields the recoverable error and no fatal diagnostic, while
creation status EPERM (1) is fatal on `pthread_create`. -/
theorem g_system_thread_create_eagain_spec_witness :
    ((g_system_thread_create (some 1) 0 true ⟨0, 0, 11, 0, true, true, 16384⟩).errorSet =
        some G_THREAD_ERROR_AGAIN ∧
      (g_system_thread_create (some 1) 0 true ⟨0, 0, 11, 0, true, true, 16384⟩).fatalOp =
        none ∧
      (g_system_thread_create (some 1) 0 true ⟨0, 0, 11, 0, true, true, 16384⟩).threadCreated =
        false) ∧
    ((g_system_thread_create (some 1) 0 true ⟨0, 0, 1, 0, true, true, 16384⟩).fatalOp =
        some "pthread_create" ∧
      (g_system_thread_create (some 1) 0 true ⟨0, 0, 1, 0, true, true, 16384⟩).errorSet =
        none) :=
  ⟨(g_system_thread_create_eagain_spec 1 0 true ⟨0, 0, 11, 0, true, true, 16384⟩
      rfl rfl rfl).1 rfl,
   (g_system_thread_create_eagain_spec 1 0 true ⟨0, 0, 1, 0, true, true, 16384⟩
      rfl rfl rfl).2 (by decide) (by decide)⟩

/-- Claim C2 (code bug): when `g_mutex_unlock` observes a nonzero status
it invokes `g_thread_abort` with the literal operation name
`"pthread_mutex_lock"` — not the unlock operation — and the message
`g_thread_abort` prints places `strerror status` in its during-operation
slot and the operation name in its status slot (the `fprintf` varargs at
lines 72-73 are in the opposite order of the format's wording). -/
theorem g_mutex_unlock_diagnostic_bug :
    g_mutex_unlock EPERM = ThreadResult.aborted EPERM "pthread_mutex_lock" ∧
    ∀ strerror : Nat → String,
      g_thread_abort_message strerror EPERM "pthread_mutex_lock" =
        ⟨strerror EPERM, "pthread_mutex_lock"⟩ :=
  ⟨rfl, fun _ => rfl⟩

/-- Claim C3 counterexample: at the unexpected native status EINVAL (22),
`g_rw_lock_writer_lock`, `g_rw_lock_reader_unlock` and `g_rec_mutex_lock`
all return normally (`ok`), never invoking the fatal helper — the status
is silently ignored, contrary to the claim that every primitive operation
invokes the fatal-diagnose-and-terminate helper on unexpected status. -/
theorem rw_rec_ops_ignore_status :
    g_rw_lock_writer_lock EINVAL = ThreadResult.ok () ∧
    g_rw_lock_reader_unlock EINVAL = ThreadResult.ok () ∧
    g_rec_mutex_lock EINVAL = ThreadResult.ok () :=
  ⟨rfl, rfl, rfl⟩

/-- Claim C3 (amended): the Mutex operations, the ConditionVariable
operations and post-readiness `g_private_set` invoke `g_thread_abort` on
every unexpected native status, but the eight ReaderWriterLock operations
and `g_rec_mutex_lock`/`unlock`/`trylock` never invoke it: the blocking
and unlock calls discard the status, and the trylock variants report any
nonzero status as FALSE. -/
theorem fatal_helper_coverage_spec (s : Nat) :
    ((s ≠ 0 → g_mutex_init s = ThreadResult.aborted s "pthread_mutex_init") ∧
      (s ≠ 0 → g_mutex_clear s = ThreadResult.aborted s "pthread_mutex_destroy") ∧
      (s ≠ 0 → g_mutex_lock s = ThreadResult.aborted s "pthread_mutex_lock") ∧
      (s ≠ 0 → g_mutex_unlock s = ThreadResult.aborted s "pthread_mutex_lock") ∧
      (s ≠ 0 → s ≠ EBUSY →
        g_mutex_trylock s = ThreadResult.aborted s "pthread_mutex_trylock") ∧
      (s ≠ 0 → g_cond_init s = ThreadResult.aborted s "pthread_cond_init") ∧
      (s ≠ 0 → g_cond_clear s = ThreadResult.aborted s "pthread_cond_destroy") ∧
      (s ≠ 0 → g_cond_wait s = ThreadResult.aborted s "pthread_cond_wait") ∧
      (s ≠ 0 → g_cond_signal s = ThreadResult.aborted s "pthread_cond_signal") ∧
      (s ≠ 0 → g_cond_broadcast s = ThreadResult.aborted s "pthread_cond_broadcast") ∧
      (∀ d, s ≠ 0 → s ≠ ETIMEDOUT →
        g_cond_timed_wait (some d) s =
          ThreadResult.aborted s "pthread_cond_timedwait") ∧
      (∀ k t v, k.ready = true → s ≠ 0 →
        g_private_set k t v s = ThreadResult.aborted s "pthread_setspecific")) ∧
    (g_rw_lock_init s = ThreadResult.ok () ∧
      g_rw_lock_clear s = ThreadResult.ok () ∧
      g_rw_lock_writer_lock s = ThreadResult.ok () ∧
      g_rw_lock_writer_unlock s = ThreadResult.ok () ∧
      g_rw_lock_reader_lock s = ThreadResult.ok () ∧
      g_rw_lock_reader_unlock s = ThreadResult.ok () ∧
      (s ≠ 0 → g_rw_lock_writer_trylock s = ThreadResult.ok false) ∧
      (s ≠ 0 → g_rw_lock_reader_trylock s = ThreadResult.ok false)) ∧
    (g_rec_mutex_lock s = ThreadResult.ok () ∧
      g_rec_mutex_unlock s = ThreadResult.ok () ∧
      (s ≠ 0 → g_rec_mutex_trylock s = ThreadResult.ok false)) := by
  refine ⟨⟨fun h => by simp [g_mutex_init, h],
           fun h => by simp [g_mutex_clear, h],
           fun h => by simp [g_mutex_lock, h],
           fun h => by simp [g_mutex_unlock, h],
           fun h hb => by simp [g_mutex_trylock, h, hb],
           fun h => by simp [g_cond_init, h],
           fun h => by simp [g_cond_clear, h],
           fun h => by simp [g_cond_wait, h],
           fun h => by simp [g_cond_signal, h],
           fun h => by simp [g_cond_broadcast, h],
           fun d h ht => by simp [g_cond_timed_wait, h, ht],
           fun k t v hr h => by simp [g_private_set, hr, h]⟩,
         ⟨rfl, rfl, rfl, rfl, rfl, rfl,
           fun h => by simp [g_rw_lock_writer_trylock, h],
           fun h => by simp [g_rw_lock_reader_trylock, h]⟩,
         ⟨rfl, rfl, fun h => by simp [g_rec_mutex_trylock, h]⟩⟩

/-- Witness for the amended C3 at status EINVAL (22): a Mutex operation
aborts, a trylock with both hypotheses aborts, a post-readiness
`g_private_set` aborts, while a ReaderWriterLock operation and
`g_rec_mutex_trylock` return normally. -/
theorem fatal_helper_coverage_spec_witness :
    g_mutex_lock 22 = ThreadResult.aborted 22 "pthread_mutex_lock" ∧
    g_mutex_trylock 22 = ThreadResult.aborted 22 "pthread_mutex_trylock" ∧
    g_private_set ⟨true, none, fun _ => none⟩ 0 (some 7) 22 =
      ThreadResult.aborted 22 "pthread_setspecific" ∧
    g_rw_lock_writer_lock 22 = ThreadResult.ok () ∧
    g_rec_mutex_trylock 22 = ThreadResult.ok false :=
  ⟨(fatal_helper_coverage_spec 22).1.2.2.1 (by decide),
   (fatal_helper_coverage_spec 22).1.2.2.2.2.1 (by decide) (by decide),
   (fatal_helper_coverage_spec 22).1.2.2.2.2.2.2.2.2.2.2.2
     ⟨true, none, fun _ => none⟩ 0 (some 7) rfl (by decide),
   (fatal_helper_coverage_spec 22).2.1.2.2.1,
   (fatal_helper_coverage_spec 22).2.2.2.2 (by decide)⟩

/-- Claim C4: `g_cond_timed_wait` with a non-null deadline returns TRUE
exactly on native status 0, FALSE exactly on ETIMEDOUT, and aborts on any
other status; with a null deadline it takes the `g_cond_wait` path and
returns TRUE when that wait succeeds (aborting exactly when `g_cond_wait`
would). -/
theorem g_cond_timed_wait_spec (d : GTimeVal) (status : Nat) :
    (g_cond_timed_wait (some d) status = ThreadResult.ok true ↔ status = 0) ∧
    (g_cond_timed_wait (some d) status = ThreadResult.ok false ↔
      status = ETIMEDOUT) ∧
    (status ≠ 0 → status ≠ ETIMEDOUT →
      g_cond_timed_wait (some d) status =
        ThreadResult.aborted status "pthread_cond_timedwait") ∧
    (status = 0 → g_cond_timed_wait none status = ThreadResult.ok true) ∧
    (status ≠ 0 →
      g_cond_timed_wait none status =
        ThreadResult.aborted status "pthread_cond_wait") := by
  by_cases h0 : status = 0
  · subst h0
    simp [g_cond_timed_wait, g_cond_wait, ETIMEDOUT]
  · by_cases ht : status = ETIMEDOUT
    · subst ht
      simp [g_cond_timed_wait, g_cond_wait, ETIMEDOUT]
    · simp [g_cond_timed_wait, g_cond_wait, h0, ht]

/-- Witness for C4: at the boundary statuses — 110 (ETIMEDOUT) with a
deadline returns FALSE, 0 with a deadline returns TRUE, 0 with a null
deadline returns TRUE, and 22 with a null deadline aborts in the
`pthread_cond_wait` path. -/
theorem g_cond_timed_wait_spec_witness :
    g_cond_timed_wait (some ⟨1, 0⟩) 110 = ThreadResult.ok false ∧
    g_cond_timed_wait (some ⟨1, 0⟩) 0 = ThreadResult.ok true ∧
    g_cond_timed_wait none 0 = ThreadResult.ok true ∧
    g_cond_timed_wait none 22 = ThreadResult.aborted 22 "pthread_cond_wait" :=
  ⟨(g_cond_timed_wait_spec ⟨1, 0⟩ 110).2.1.mpr (by decide),
   (g_cond_timed_wait_spec ⟨1, 0⟩ 0).1.mpr rfl,
   (g_cond_timed_wait_spec ⟨1, 0⟩ 0).2.2.2.1 rfl,
   (g_cond_timed_wait_spec ⟨1, 0⟩ 22).2.2.2.2 (by decide)⟩

/-- Claim C5: `g_mutex_trylock` returns TRUE exactly on native status 0,
FALSE exactly on EBUSY, and aborts on any other status. -/
theorem g_mutex_trylock_spec (status : Nat) :
    (g_mutex_trylock status = ThreadResult.ok true ↔ status = 0) ∧
    (g_mutex_trylock status = ThreadResult.ok false ↔ status = EBUSY) ∧
    (status ≠ 0 → status ≠ EBUSY →
      g_mutex_trylock status =
        ThreadResult.aborted status "pthread_mutex_trylock") := by
  by_cases h0 : status = 0
  · subst h0
    simp [g_mutex_trylock, EBUSY]
  · by_cases hb : status = EBUSY
    · subst hb
      simp [g_mutex_trylock, EBUSY]
    · simp [g_mutex_trylock, h0, hb]

/-- Witness for C5: status 0 acquires, EBUSY (16) returns FALSE, and
EINVAL (22) aborts on `pthread_mutex_trylock`. -/
theorem g_mutex_trylock_spec_witness :
    g_mutex_trylock 0 = ThreadResult.ok true ∧
    g_mutex_trylock 16 = ThreadResult.ok false ∧
    g_mutex_trylock 22 = ThreadResult.aborted 22 "pthread_mutex_trylock" :=
  ⟨(g_mutex_trylock_spec 0).1.mpr rfl,
   (g_mutex_trylock_spec 16).2.1.mpr (by decide),
   (g_mutex_trylock_spec 22).2.2 (by decide) (by decide)⟩

/-- Claim C6 (code bug): in the interleaving model of
`g_rec_mutex_get_impl`, the schedule where thread 0 performs its first
read (seeing NULL), thread 1 then runs the accessor to completion
(publishing handle 0), and thread 0 then evaluates the second read in the
`if` condition, ends with thread 0 returning NULL (`ret none`) even
though the handle is published — because the local `impl` from the first
read is stale.  A thread that starts only after publication does obtain
the published handle (second schedule). -/
theorem rec_mutex_get_impl_stale_null :
    (RecMutexRace.run (RecMutexRace.initState 2) [0, 1, 1, 1, 1, 1, 0]).published =
      some 0 ∧
    (RecMutexRace.run (RecMutexRace.initState 2) [0, 1, 1, 1, 1, 1, 0]).threads =
      [RecMutexRace.GetImplPc.ret none,
        RecMutexRace.GetImplPc.ret (some 0)] ∧
    (RecMutexRace.run (RecMutexRace.initState 2) [0, 1, 1, 1, 1, 1, 0]).freed =
      [] ∧
    (RecMutexRace.run (RecMutexRace.initState 2) [0, 0, 0, 0, 0, 1, 1]).threads =
      [RecMutexRace.GetImplPc.ret (some 0),
        RecMutexRace.GetImplPc.ret (some 0)] := by
  decide

/-- Claim C7: before readiness, `g_private_get` returns the slot's shared
fallback and `g_private_set` stores into it; after readiness,
`g_private_get` reads only the calling thread's per-thread value (the
fallback no longer influences it), `g_private_init` leaves every thread's
value NULL (so a value set before readiness is not returned afterwards),
and a post-readiness `g_private_set` is visible to the setting thread
only. -/
theorem g_private_modes_spec (k : GPrivateState) (t u : Nat) (v w : Option Nat)
    (status : Nat) :
    (k.ready = false → g_private_get k t = k.single_value) ∧
    (k.ready = false →
      g_private_set k t v status = ThreadResult.ok { k with single_value := v }) ∧
    (k.ready = true → g_private_get k t = k.tls t) ∧
    (k.ready = true →
      g_private_get { k with single_value := w } t = g_private_get k t) ∧
    (g_private_get (g_private_init k) u = none) ∧
    (k.ready = true → status = 0 →
      ∃ k2, g_private_set k t v status = ThreadResult.ok k2 ∧
        g_private_get k2 t = v ∧ (u ≠ t → g_private_get k2 u = k.tls u)) := by
  refine ⟨fun h => by simp [g_private_get, h],
          fun h => by simp [g_private_set, h],
          fun h => by simp [g_private_get, h],
          fun h => by simp [g_private_get, h],
          by simp [g_private_get, g_private_init],
          fun hr h0 => ?_⟩
  refine ⟨{ k with tls := fun u2 => if u2 = t then v else k.tls u2 }, ?_, ?_, ?_⟩
  · simp [g_private_set, hr, h0]
  · simp [g_private_get, hr]
  · intro hu
    simp [g_private_get, hr, hu]

/-- Witness for C7: a concrete pre-readiness slot returns its fallback; a
value set before readiness is gone after `g_private_init`; a
post-readiness set is returned to the setting thread and invisible to
another thread. -/
theorem g_private_modes_spec_witness :
    g_private_get ⟨false, some 5, fun _ => none⟩ 0 = some 5 ∧
    g_private_get (g_private_init ⟨false, some 5, fun _ => none⟩) 1 = none ∧
    (∃ k2, g_private_set ⟨true, some 5, fun _ => none⟩ 0 (some 7) 0 =
        ThreadResult.ok k2 ∧
      g_private_get k2 0 = some 7 ∧
      ((1 : Nat) ≠ 0 → g_private_get k2 1 = none)) :=
  ⟨(g_private_modes_spec ⟨false, some 5, fun _ => none⟩ 0 1 none none 0).1 rfl,
   (g_private_modes_spec ⟨false, some 5, fun _ => none⟩ 0 1 none none 0).2.2.2.2.1,
   (g_private_modes_spec ⟨true, some 5, fun _ => none⟩ 0 1 (some 7) none 0).2.2.2.2.2
     rfl rfl⟩

/-- Claim C8: `g_rec_mutex_clear` performs the backing-state release
exactly when `impl` is non-null (releasing precisely that handle), and on
a never-used statically initialized instance it frees nothing. -/
theorem g_rec_mutex_clear_spec (m : GRecMutex) :
    (m.impl = none → g_rec_mutex_clear m = []) ∧
    (∀ h, m.impl = some h → g_rec_mutex_clear m = g_rec_mutex_impl_free h) ∧
    (g_rec_mutex_clear m = [] ↔ m.impl = none) ∧
    g_rec_mutex_clear g_rec_mutex_static_init = [] := by
  refine ⟨fun h => by simp [g_rec_mutex_clear, h],
          fun h hh => by simp [g_rec_mutex_clear, hh],
          ?_, rfl⟩
  cases hm : m.impl <;>
    simp [g_rec_mutex_clear, hm, g_rec_mutex_impl_free]

/-- Witness for C8: clearing a never-used instance frees nothing;
clearing an instance whose backing handle is 3 performs exactly the
release of handle 3. -/
theorem g_rec_mutex_clear_spec_witness :
    g_rec_mutex_clear ⟨none⟩ = [] ∧
    g_rec_mutex_clear ⟨some 3⟩ = g_rec_mutex_impl_free 3 :=
  ⟨(g_rec_mutex_clear_spec ⟨none⟩).1 rfl,
   (g_rec_mutex_clear_spec ⟨some 3⟩).2.1 3 rfl⟩

/-- Claim C9: on the path reaching the attribute setup, with the
stack-size capabilities present and a platform-reported (nonnegative
`long`) minimum, a zero hint never calls `pthread_attr_setstacksize`,
and a nonzero hint applies exactly the maximum of the reported minimum
and the hint — never less than the hint. -/
theorem g_system_thread_create_stack_hint_spec (f stack_size : Nat)
    (joinable : Bool) (env : CreateEnv) (hinit : env.attrInitStatus = 0)
    (hdetach : env.setDetachStatus = 0) (hdestroy : env.attrDestroyStatus = 0)
    (hcap : env.haveSetStackSize = true) (hmin : env.haveStackMin = true)
    (h0 : 0 ≤ env.sysconfStackMin) (h64 : env.sysconfStackMin < 2 ^ 64) :
    (g_system_thread_create (some f) 0 joinable env).stackSizeApplied = none ∧
    (stack_size ≠ 0 →
      (g_system_thread_create (some f) stack_size joinable env).stackSizeApplied =
        some (Nat.max env.sysconfStackMin.toNat stack_size) ∧
      stack_size ≤ Nat.max env.sysconfStackMin.toNat stack_size) := by
  have hu : ulongOf env.sysconfStackMin = env.sysconfStackMin.toNat := by
    unfold ulongOf
    rw [Int.emod_eq_of_lt h0 h64]
  constructor
  · unfold g_system_thread_create
    by_cases hc : env.createStatus = EAGAIN <;>
      by_cases hc0 : env.createStatus = 0 <;>
      simp_all [EAGAIN]
  · intro hs
    refine ⟨?_, Nat.le_max_right _ _⟩
    unfold g_system_thread_create
    by_cases hc : env.createStatus = EAGAIN <;>
      by_cases hc0 : env.createStatus = 0 <;>
      simp_all [EAGAIN]

/-- Witness for C9: with a reported minimum of 16384, a zero hint leaves
the attributes untouched and a hint of 4096 is clamped up to 16384. -/
theorem g_system_thread_create_stack_hint_spec_witness :
    (g_system_thread_create (some 1) 0 true ⟨0, 0, 0, 0, true, true, 16384⟩).stackSizeApplied =
      none ∧
    ((g_system_thread_create (some 1) 4096 true ⟨0, 0, 0, 0, true, true, 16384⟩).stackSizeApplied =
        some (Nat.max (Int.toNat 16384) 4096) ∧
      4096 ≤ Nat.max (Int.toNat 16384) 4096) :=
  ⟨(g_system_thread_create_stack_hint_spec 1 4096 true
      ⟨0, 0, 0, 0, true, true, 16384⟩ rfl rfl rfl rfl rfl (by decide) (by decide)).1,
   (g_system_thread_create_stack_hint_spec 1 4096 true
      ⟨0, 0, 0, 0, true, true, 16384⟩ rfl rfl rfl rfl rfl (by decide) (by decide)).2
     (by decide)⟩

/-- Claim C10: a call with a NULL start function fires the
`g_return_if_fail` guard — it logs a critical diagnostic and returns at
once, with no fatal error, no attribute work, no thread created and the
error out-parameter untouched. -/
theorem g_system_thread_create_null_func (stack_size : Nat) (joinable : Bool)
    (env : CreateEnv) :
    g_system_thread_create none stack_size joinable env =
      ⟨true, none, none, none, false, none⟩ := by
  unfold g_system_thread_create
  simp

end GThreadPosix
